import Mathlib

/-!
Verification of the strivex websocket response-reconciliation bridge.

The development shallowly embeds the two core source modules:
  * relevance.js — dispatch to the external processor, the fallback poller
    and the webhook payload normalizer parseWebhookResponse;
  * server.js — the webhook receiver handleWebhook, the socket message
    handler and the thread-to-sockets registry.

JavaScript values occurring in webhook payloads are modelled by the JSON
value type JVal; a thrown JS exception is modelled by the .error case of
Except.  All definitions are translated from the source files; each
definition's doc comment names the source location it embeds.
-/

/-- JSON-like JavaScript value as found in webhook payloads and API
responses.  vNull stands for both null and undefined (the source code
distinguishes them only in ways that do not affect the modelled paths,
as noted at each use site). -/
inductive JVal where
  | vNull : JVal
  | vBool : Bool → JVal
  | vNum : Int → JVal
  | vStr : String → JVal
  | vArr : List JVal → JVal
  | vObj : List (String × JVal) → JVal

namespace JVal

/-- JavaScript truthiness: null/undefined, false, 0 and "" are falsy;
every array and object is truthy. -/
def truthy : JVal → Bool
  | .vNull => false
  | .vBool b => b
  | .vNum n => n != 0
  | .vStr s => s != ""
  | .vArr _ => true
  | .vObj _ => true

/-- Whether a value is null or undefined (the operand class on which
JS property access throws). -/
def isNullish : JVal → Bool
  | .vNull => true
  | _ => false

/-- JS property access v.f on a non-nullish value: the field of an
object, undefined (vNull) otherwise.  Guarded in the source so that it
is never applied to null/undefined. -/
def jget (v : JVal) (f : String) : JVal :=
  match v with
  | .vObj fs =>
    match fs.find? (fun p => p.1 == f) with
    | some p => p.2
    | none => .vNull
  | _ => .vNull

/-- JS a || b : a when truthy, b otherwise. -/
def jsOr (a b : JVal) : JVal := if truthy a then a else b

/-- JS a && b : b when a is truthy, a otherwise. -/
def jsAnd (a b : JVal) : JVal := if truthy a then b else a

/-- JS strict equality v === s against a string literal. -/
def strictEqStr (v : JVal) (s : String) : Bool :=
  match v with
  | .vStr t => t == s
  | _ => false

/-- JS optional chaining v?.f : undefined when v is nullish, v.f
otherwise. -/
def optChain (v : JVal) (f : String) : JVal :=
  if isNullish v then .vNull else jget v f

/-- JS string-to-number coercion restricted to integer literals: ""
and whitespace coerce to 0, integer numerals to their value, anything
else to NaN (none).  Decimal literals are modelled as non-numeric; no
modelled code path feeds a decimal string to a numeric coercion. -/
def strToNumber (s : String) : Option Int :=
  let t := s.trim
  if t = "" then some 0 else t.toInt?

mutual

/-- JS String(v) coercion.  Arrays join their elements with commas,
rendering null/undefined elements as the empty string; objects render
as "[object Object]". -/
def jsToString : JVal → String
  | .vNull => "null"
  | .vBool b => if b then "true" else "false"
  | .vNum n => toString n
  | .vStr s => s
  | .vArr xs => arrJoin xs
  | .vObj _ => "[object Object]"

/-- Array-to-string join used by jsToString. -/
def arrJoin : List JVal → String
  | [] => ""
  | [x] => if isNullish x then "" else jsToString x
  | x :: rest =>
    (if isNullish x then "" else jsToString x) ++ "," ++ arrJoin rest

end

mutual

/-- JSON.stringify.  String escaping is modelled for backslash and
double quote, the only escapes exercised by the modelled payloads. -/
def jsonStringify : JVal → String
  | .vNull => "null"
  | .vBool b => if b then "true" else "false"
  | .vNum n => toString n
  | .vStr s => "\"" ++ (s.replace "\\" "\\\\").replace "\"" "\\\"" ++ "\""
  | .vArr xs => "[" ++ stringifyElems xs ++ "]"
  | .vObj fs => "\x7b" ++ stringifyFields fs ++ "\x7d"

/-- Comma-joined elements of a JSON array. -/
def stringifyElems : List JVal → String
  | [] => ""
  | [x] => jsonStringify x
  | x :: rest => jsonStringify x ++ "," ++ stringifyElems rest

/-- Comma-joined key-value pairs of a JSON object. -/
def stringifyFields : List (String × JVal) → String
  | [] => ""
  | [(k, v)] => "\"" ++ k ++ "\":" ++ jsonStringify v
  | (k, v) :: rest =>
    "\"" ++ k ++ "\":" ++ jsonStringify v ++ "," ++ stringifyFields rest

end

/-- JS comparison v > 0, via numeric coercion: numbers compare
directly, strings and arrays coerce with strToNumber after string
conversion, booleans coerce to 0/1, null/undefined and plain objects
compare false. -/
def gtZero : JVal → Bool
  | .vNum n => decide (0 < n)
  | .vStr s =>
    match strToNumber s with
    | some n => decide (0 < n)
    | none => false
  | .vBool b => b
  | .vNull => false
  | .vArr xs =>
    match strToNumber (jsToString (.vArr xs)) with
    | some n => decide (0 < n)
    | none => false
  | .vObj _ => false

/-- JS v.length as a value: string length, array length, or the length
field of an object; undefined otherwise. -/
def jsLength : JVal → JVal
  | .vStr s => .vNum s.length
  | .vArr xs => .vNum xs.length
  | .vObj fs =>
    match fs.find? (fun p => p.1 == "length") with
    | some p => p.2
    | none => .vNull
  | _ => .vNull

end JVal

open JVal

/-- Canonical parsed response object returned by parseWebhookResponse
(relevance.js 370-465).  The raw and status fields are populated only
by the unparsed fallback branch, matching the source object shapes. -/
structure Envelope where
  text : JVal
  conversation_id : JVal
  thread_id : JVal
  raw : Option JVal := none
  status : Option String := none

/-- Format 1 of parseWebhookResponse (relevance.js 379-386): a truthy
direct response property. -/
def fmt1 (d : JVal) : Option Envelope :=
  if truthy (jget d "response") then
    some { text := jget d "response",
           conversation_id := jget d "conversation_id",
           thread_id := jget d "thread_id" }
  else none

/-- The filter applied to the results list (relevance.js 390-391):
entries whose content is truthy and whose content.type is strictly
equal to the string agent-message. -/
def agentMsgs (xs : List JVal) : List JVal :=
  xs.filter (fun m => truthy (jget m "content") && strictEqStr (jget (jget m "content") "type") "agent-message")

/-- Format 2 of parseWebhookResponse (relevance.js 388-401): a results
property that is truthy with positive length.  The source calls
results.filter, which throws when results is not an array, and the
filter callback reads msg.content, which throws when an entry is
null/undefined; both throws are modelled as .error.  When the filtered
list is empty the source falls through to format 3 (none here). -/
def fmt2 (d : JVal) : Option (Except String Envelope) :=
  if truthy (jget d "results") && gtZero (jsLength (jget d "results")) then
    match jget d "results" with
    | .vArr xs =>
      if xs.any isNullish then
        some (.error "TypeError: Cannot read properties of null (reading content)")
      else
        match (agentMsgs xs).getLast? with
        | some m =>
          some (.ok { text := jget (jget m "content") "text",
                      conversation_id := jget d "conversation_id",
                      thread_id := jget d "thread_id" })
        | none => none
    | _ => some (.error "TypeError: webhookData.results.filter is not a function")
  else none

/-- Format 3 of parseWebhookResponse (relevance.js 404-410): a truthy
output property; the text is output.text when truthy, else output
itself. -/
def fmt3 (d : JVal) : Option Envelope :=
  if truthy (jget d "output") then
    some { text := jsOr (jget (jget d "output") "text") (jget d "output"),
           conversation_id := jget d "conversation_id",
           thread_id := jget d "thread_id" }
  else none

/-- Format 4 of parseWebhookResponse (relevance.js 413-419): a truthy
task property with a truthy task.response. -/
def fmt4 (d : JVal) : Option Envelope :=
  if truthy (jget d "task") && truthy (jget (jget d "task") "response") then
    some { text := jget (jget d "task") "response",
           conversation_id := jget d "conversation_id",
           thread_id := jget d "thread_id" }
  else none

/-- Stringification used by formats 5 and 6 (relevance.js 430, 439):
the content itself when it is a string, JSON.stringify of it
otherwise. -/
def contentToString (c : JVal) : String :=
  match c with
  | .vStr s => s
  | c => jsonStringify c

/-- Format 5 of parseWebhookResponse (relevance.js 428-434): a truthy
content property. -/
def fmt5 (d : JVal) : Option Envelope :=
  if truthy (jget d "content") then
    some { text := .vStr (contentToString (jget d "content")),
           conversation_id := jsOr (jget d "conversation_id") (jget d "thread_id"),
           thread_id := jget d "thread_id" }
  else none

/-- Format 6 of parseWebhookResponse (relevance.js 437-443): a truthy
data property with a truthy data.content. -/
def fmt6 (d : JVal) : Option Envelope :=
  if truthy (jget d "data") && truthy (jget (jget d "data") "content") then
    some { text := .vStr (contentToString (jget (jget d "data") "content")),
           conversation_id := jsOr (jget (jget d "data") "conversation_id") (jget d "thread_id"),
           thread_id := jget d "thread_id" }
  else none

/-- Best-effort text extraction of the unparsed fallback
(relevance.js 445-456): the first 100 characters when the payload is a
string, otherwise the message property when truthy, otherwise the
error property when truthy, otherwise a job_info failure note; empty
when nothing applies. -/
def fallbackText (d : JVal) : String :=
  match d with
  | .vStr s => s.take 100
  | _ =>
    if truthy (jget d "message") then
      match jget d "message" with
      | .vStr s => s
      | _ => "Found message property but not in expected format"
    else if truthy (jget d "error") then
      match jget d "error" with
      | .vStr s => "Error: " ++ s
      | _ => "Error occurred but details not available"
    else if truthy (jget d "job_info") && strictEqStr (jget (jget d "job_info") "status") "failed" then
      "Job failed: " ++ jsToString (jsOr (jget (jget d "job_info") "error") (.vStr "Unknown error"))
    else ""

/-- The diagnostic envelope of the unparsed fallback
(relevance.js 458-464): raw payload retained, status unparsed, and the
extracted text or a default note when the extraction is empty. -/
def fallbackEnvelope (d : JVal) : Envelope :=
  { text := .vStr (if fallbackText d = "" then
        "No response text could be extracted from the webhook data"
      else fallbackText d),
    conversation_id := jget d "conversation_id",
    thread_id := jget d "thread_id",
    raw := some d,
    status := some "unparsed" }

/-- parseWebhookResponse (relevance.js 370-465): throws on falsy input
(line 372), then tries formats 1 to 6 in source order and otherwise
returns the unparsed fallback envelope. -/
def parseWebhookResponse (d : JVal) : Except String Envelope :=
  if truthy d = false then .error "Webhook data is required"
  else
    match fmt1 d with
    | some env => .ok env
    | none =>
      match fmt2 d with
      | some r => r
      | none =>
        match fmt3 d with
        | some env => .ok env
        | none =>
          match fmt4 d with
          | some env => .ok env
          | none =>
            match fmt5 d with
            | some env => .ok env
            | none =>
              match fmt6 d with
              | some env => .ok env
              | none => .ok (fallbackEnvelope d)

/-- A socket connection as seen by the registry: its id and its
liveness flag (socket.connected). -/
structure SocketRef where
  id : String
  connected : Bool
  deriving DecidableEq, Repr

/-- threadSocketsMap (server.js 76): thread id to the set of sockets
registered under it.  The JS Set of socket objects is modelled as a
list deduplicated by socket id. -/
abbrev Registry : Type := List (String × List SocketRef)

/-- Registration of a socket under a thread id (server.js 274-277):
create the entry when absent, then add the socket to the set.  Set.add
on an already-present member is a no-op, modelled by the id check. -/
def registerSocket (reg : Registry) (t : String) (s : SocketRef) : Registry :=
  if (List.find? (fun e => e.1 == t) reg).isSome then
    reg.map (fun e =>
      if e.1 == t then
        (e.1, if e.2.any (fun r => r.id == s.id) then e.2 else e.2 ++ [s])
      else e)
  else reg ++ [(t, [s])]

/-- The disconnect handler (server.js 410-421): when the socket has a
thread id with an entry in the map, remove the socket from that
thread's set and drop the entry when the set becomes empty. -/
def unregisterSocket (reg : Registry) (tid : Option String) (sid : String) : Registry :=
  match tid with
  | none => reg
  | some t =>
    List.filterMap (fun e =>
      if e.1 == t then
        let rest := e.2.filter (fun r => r.id != sid)
        if rest.isEmpty then none else some (e.1, rest)
      else some e) reg

/-- threadSocketsMap.get on a resolved thread-id value
(server.js 119): Map keys are the string thread ids generated at
connection time, so only a string key can match; any other value gives
undefined. -/
def regLookup (tid : JVal) (reg : Registry) : Option (List SocketRef) :=
  match tid with
  | .vStr t => (List.find? (fun e => e.1 == t) reg).map (fun e => e.2)
  | _ => none

/-- Registry invariant (spec section 3): no persisting thread entry
has an empty connection set. -/
def regWF (reg : Registry) : Prop := ∀ e ∈ reg, e.2 ≠ []

/-- The connected sockets registered under a thread id. -/
def liveSockets (reg : Registry) (t : String) : List SocketRef :=
  (((List.find? (fun e => e.1 == t) reg).map (fun e => e.2)).getD []).filter
    (fun s => s.connected)

/-- One socket.emit observed by a client, tagged with the receiving
socket's id (server.js reply/processing/error/message_sent events). -/
inductive Emission where
  | reply (sockId : String) (response : JVal) (conversationId : JVal)
  | processing (sockId : String)
  | errorEv (sockId : String) (message : String)
  | messageSent (sockId : String) (conversationId : JVal)

/-- The socket an emission is sent to. -/
def emissionSock : Emission → String
  | .reply s _ _ => s
  | .processing s => s
  | .errorEv s _ => s
  | .messageSent s _ => s

/-- Number of reply envelopes in a list of emissions. -/
def countReplies (es : List Emission) : Nat :=
  (es.filter (fun e => match e with | .reply _ _ _ => true | _ => false)).length

/-- The socket ids receiving a reply envelope, in emission order. -/
def recipientsOf (es : List Emission) : List String :=
  es.filterMap (fun e => match e with | .reply s _ _ => some s | _ => none)

/-- Thread-id resolution of the webhook receiver (server.js 101-105):
body.thread_id || body.threadId || body.conversation_id ||
(body.task && body.task.thread_id) || body.id, left associated as in
the source. -/
def resolveThreadId (d : JVal) : JVal :=
  jsOr (jsOr (jsOr (jsOr (jget d "thread_id") (jget d "threadId"))
      (jget d "conversation_id"))
    (jsAnd (jget d "task") (jget (jget d "task") "thread_id")))
  (jget d "id")

/-- The asynchronously processed part of handleWebhook
(server.js 98-154): resolve a thread id and drop the payload when none
resolves; parse the payload (an exception is swallowed by the inner
try/catch, emitting nothing); look up the thread's socket set and
return when it is missing or empty; otherwise emit the parsed reply to
every socket whose connected flag is true. -/
def handleWebhookEvents (d : JVal) (reg : Registry) : List Emission :=
  if truthy (resolveThreadId d) = false then []
  else
    match parseWebhookResponse d with
    | .error _ => []
    | .ok env =>
      match regLookup (resolveThreadId d) reg with
      | none => []
      | some socks =>
        if socks.isEmpty then []
        else (socks.filter (fun s => s.connected)).map
          (fun s => Emission.reply s.id env.text env.conversation_id)

/-- The structured return value of sendMessageToRelevanceAI
(relevance.js 351-357). -/
structure DispatchResult where
  conversation_id : JVal
  thread_id : Option String
  job_id : JVal
  status : JVal

/-- sendMessageToRelevanceAI (relevance.js 172-363).  The outbound
fetch of lines 280-311 is abstracted by its outcome: .error covers a
network failure, a non-ok HTTP status (line 303-307) and a body-parse
failure, .ok carries the parsed response body.  The construction of
the outbound request body (lines 193-277) carries no information used
by any later step and is not modelled.  The returned pair is the
function's result (or thrown error) together with the 10-second
fallback timer: some jobId exactly when the timer of lines 319-348 was
armed, which the source does when the response carries
job_info.job_id and a socket callback was supplied. -/
def sendMessageToRelevanceAI (message authToken serverUrl : String)
    (threadId : Option String) (hasCallback : Bool)
    (transport : Except String JVal) :
    Except String DispatchResult × Option JVal :=
  if message = "" then (.error "Message is required", none)
  else if authToken = "" then
    (.error "RAI_AUTH_TOKEN environment variable is required for Relevance AI API calls", none)
  else if serverUrl = "" then
    (.error "SERVER_URL environment variable is required for webhook callbacks", none)
  else
    match transport with
    | .error e => (.error e, none)
    | .ok rd =>
      let jobId := optChain (jget rd "job_info") "job_id"
      let armed := if truthy jobId && hasCallback then some jobId else none
      (.ok { conversation_id := jget rd "conversation_id",
             thread_id := threadId,
             job_id := jobId,
             status := jsOr (jget rd "state") (.vStr "processing") },
       armed)

/-- The single onComplete result of a poll run: a reply on a completed
job, or an error-flagged result (failed job, exhausted attempts, or a
poll exception), per the onComplete objects of relevance.js 121-156. -/
inductive PollResult where
  | success (text : JVal) (conversationId : JVal)
  | failure (text : String)

/-- Terminal-success test of a poll response (relevance.js 103):
state === completed or status === completed. -/
def isCompleted (jd : JVal) : Bool :=
  strictEqStr (jget jd "state") "completed" || strictEqStr (jget jd "status") "completed"

/-- Terminal-failure test of a poll response (relevance.js 130). -/
def isFailed (jd : JVal) : Bool :=
  strictEqStr (jget jd "state") "failed" || strictEqStr (jget jd "status") "failed"

/-- Response-text extraction on a completed job
(relevance.js 106-119): output?.text, else response, else result
(stringified when not a string), else content, else a fixed note. -/
def extractPollText (jd : JVal) : JVal :=
  if truthy (optChain (jget jd "output") "text") then optChain (jget jd "output") "text"
  else if truthy (jget jd "response") then jget jd "response"
  else if truthy (jget jd "result") then
    match jget jd "result" with
    | .vStr s => .vStr s
    | r => .vStr (jsonStringify r)
  else if truthy (jget jd "content") then jget jd "content"
  else .vStr "Job completed, but no response text found"

/-- The poll loop of pollJobStatus (relevance.js 95-158).  resp gives
the outcome of the status request of each attempt (0-based); .error is
a thrown getJobStatus.  idx is the 0-based attempt index; the source
continues while attempts < maxAttempts after incrementing, i.e. while
idx + 1 < maxAttempts.  The fuel argument only bounds the recursion
and is chosen large enough at the call site that the 0 case is never
reached. -/
def pollAux (resp : Nat → Except String JVal) (maxAttempts : Nat) :
    Nat → Nat → PollResult
  | 0, _ => .failure "Timeout: Job processing took too long"
  | fuel + 1, idx =>
    match resp idx with
    | .error e => .failure ("Polling error: " ++ e)
    | .ok jd =>
      if isCompleted jd then
        .success (extractPollText jd) (jget jd "conversation_id")
      else if isFailed jd then
        .failure ("Error: " ++ jsToString (jsOr (jget jd "error") (.vStr "Job failed")))
      else if idx + 1 < maxAttempts then pollAux resp maxAttempts fuel (idx + 1)
      else .failure "Timeout: Job processing took too long"

/-- pollJobStatus (relevance.js 91-162): run the poll loop from
attempt 0.  Every run produces exactly one PollResult, matching the
single onComplete call on every path of the source. -/
def pollJobStatus (resp : Nat → Except String JVal) (maxAttempts : Nat) : PollResult :=
  pollAux resp maxAttempts (maxAttempts + 1) 0

/-- An (eventType, eventData) pair passed to the socket callback by
the dispatcher (relevance.js 327-345). -/
inductive CbEvent where
  | processingE (message : String)
  | replyE (response : JVal) (conversationId : JVal)
  | errorE (message : String)

/-- The onComplete wiring of the armed timer (relevance.js 333-346):
an error-flagged result becomes an error event, a success becomes a
reply whose conversation id falls back to the dispatch conversation
id. -/
def pollCbEvent (dispatchConv : JVal) : PollResult → CbEvent
  | .success t c => .replyE t (jsOr c dispatchConv)
  | .failure t => .errorE t

/-- The callback events produced by one firing of the 10-second
fallback timer (relevance.js 323-347): a processing notice, then the
single poll outcome. -/
def timerCbEvents (dispatchConv : JVal) (resp : Nat → Except String JVal)
    (maxAttempts : Nat) : List CbEvent :=
  [CbEvent.processingE "Webhook not received, starting polling fallback...",
   pollCbEvent dispatchConv (pollJobStatus resp maxAttempts)]

/-- The socket callback supplied by the message handler
(server.js 352-376): each callback event is emitted to the one socket
that sent the message, the reply conversation id falling back once
more to the dispatch response conversation id. -/
def serverCbEmission (sid : String) (respConv : JVal) : CbEvent → Emission
  | .processingE _ => .processing sid
  | .replyE r c => .reply sid r (jsOr c respConv)
  | .errorE m => .errorEv sid m

/-- All emissions of the fallback-poll path for one job: nothing when
the timer was not armed, otherwise the timer callback events mapped
through the socket callback.  The source arms the timer with no
reference to any delivery state, so its firing is unconditional. -/
def jobTimerEmissions (sid : String) (dispatchConv respConv : JVal)
    (armed : Option JVal) (resp : Nat → Except String JVal)
    (maxAttempts : Nat) : List Emission :=
  match armed with
  | none => []
  | some _ => (timerCbEvents dispatchConv resp maxAttempts).map (serverCbEmission sid respConv)

/-- The emissions of one interleaved execution of a dispatched job:
each arriving webhook body is processed by the webhook receiver, and
the armed fallback timer fires and polls to completion.  The source
has no state read by one path and written by the other, so the two
paths' emissions are independent of their interleaving. -/
def raceTrace (webhookBodies : List JVal) (reg : Registry) (sid : String)
    (dispatchConv respConv : JVal) (armed : Option JVal)
    (resp : Nat → Except String JVal) (maxAttempts : Nat) : List Emission :=
  (webhookBodies.map (fun b => handleWebhookEvents b reg)).flatten ++
    jobTimerEmissions sid dispatchConv respConv armed resp maxAttempts

/-- The socket message handler (server.js 291-403) for a connected
socket that already has a thread id: reject an empty message or a
missing agent id, emit a processing notice, dispatch, then either
acknowledge with message_sent when the response has a conversation id
or emit the error of the catch block.  The handler always passes a
socket callback to the dispatcher (hasCallback true). -/
def socketMessageHandler (sid : String) (msg agentId authToken serverUrl : String)
    (threadId : Option String) (transport : Except String JVal) : List Emission :=
  if msg = "" then [.errorEv sid "No message content provided"]
  else if agentId = "" then [.errorEv sid "Agent ID is required"]
  else
    Emission.processing sid ::
    (match (sendMessageToRelevanceAI msg authToken serverUrl threadId true transport).1 with
     | .error e => [.errorEv sid ("Error processing your message: " ++ e)]
     | .ok r =>
       if truthy r.conversation_id then [.messageSent sid r.conversation_id]
       else [.errorEv sid "Error processing your message: No valid response from Relevance AI"])

/-- Scenario connection: socket s1, connected, on thread T1
(spec section 8, scenario B). -/
def sock1 : SocketRef := { id := "s1", connected := true }

/-- Scenario registry: thread T1 holding the single live socket s1. -/
def regT1 : Registry := [("T1", [sock1])]

/-- Scenario webhook body: a callback for thread T1 carrying a direct
response text. -/
def whBody1 : JVal :=
  .vObj [("thread_id", .vStr "T1"), ("response", .vStr "Hi there"),
         ("conversation_id", .vStr "C1")]

/-- Scenario dispatch response: conversation C1 with job id J1 still
running. -/
def dispatchRespJ1 : JVal :=
  .vObj [("conversation_id", .vStr "C1"),
         ("job_info", .vObj [("job_id", .vStr "J1")]),
         ("state", .vStr "running")]

/-- Scenario poll responses: every status request reports the job
completed with output text Hi there. -/
def pollRespCompleted : Nat → Except String JVal := fun _ =>
  .ok (.vObj [("state", .vStr "completed"),
              ("output", .vObj [("text", .vStr "Hi there")]),
              ("conversation_id", .vStr "C1")])

/-- C1: the claim asserts exactly-once delivery per dispatched job via
an atomic resolved flag.  The source has no resolved flag: in the
scenario in which the webhook for thread T1 arrives (and is delivered)
before the 10-second timer fires, the unconditionally armed fallback
timer still polls, finds the job completed and delivers again, so the
single live connection receives two reply envelopes instead of one. -/
theorem job_delivered_twice :
    countReplies (raceTrace [whBody1] regT1 "s1" (JVal.vStr "C1") (JVal.vStr "C1")
      (sendMessageToRelevanceAI "Hello" "tok" "https://srv" (some "T1") true
        (.ok dispatchRespJ1)).2
      pollRespCompleted 10) = 2 := by rfl

/-- C2: the claim asserts that a job whose callback is delivered
before the arm timeout never starts polling.  In the source the timer
is armed whenever the dispatch response has a job id and a callback
was supplied, and its firing starts polling with no check of any
delivery state: here the webhook reply has already been delivered
(one reply emitted by the receiver), yet the dispatcher armed the
timer for job J1 and its firing still emits the polling notice and a
second, polled reply. -/
theorem poll_starts_despite_callback :
    (sendMessageToRelevanceAI "Hello" "tok" "https://srv" (some "T1") true
        (.ok dispatchRespJ1)).2 = some (JVal.vStr "J1")
    ∧ countReplies (handleWebhookEvents whBody1 regT1) = 1
    ∧ jobTimerEmissions "s1" (JVal.vStr "C1") (JVal.vStr "C1")
        (some (JVal.vStr "J1")) pollRespCompleted 10
      = [Emission.processing "s1",
         Emission.reply "s1" (JVal.vStr "Hi there") (JVal.vStr "C1")] :=
  ⟨rfl, rfl, rfl⟩

/-- C3 counterexample: parseWebhookResponse applied to null throws
(relevance.js 371-373) instead of returning an envelope, refuting the
claim that it never raises for every input including null. -/
theorem parse_throws_on_null :
    parseWebhookResponse JVal.vNull = .error "Webhook data is required" := rfl

/-- Safety condition under which the normalizer cannot reach a throw
after the initial truthiness guard: whenever the results property is
truthy with positive length it is an array with no null/undefined
entries (otherwise relevance.js 389-390 throws a TypeError). -/
def resultsSafe (d : JVal) : Bool :=
  if truthy (jget d "results") && gtZero (jsLength (jget d "results")) then
    match jget d "results" with
    | .vArr xs => !(xs.any isNullish)
    | _ => false
  else true

/-- On a payload whose results property is safe, the format-2 branch
never produces a thrown error. -/
theorem fmt2_safe (d : JVal) (h : resultsSafe d = true) :
    ∀ r, fmt2 d = some r → ∃ e, r = Except.ok e := by
  intro r hr
  cases hc : truthy (jget d "results") && gtZero (jsLength (jget d "results")) with
  | false => simp [fmt2, hc] at hr
  | true =>
    cases hres : jget d "results" with
    | vArr xs =>
      rw [hres] at hc
      have hn : xs.any isNullish = false := by
        unfold resultsSafe at h
        rw [hres] at h
        rw [if_pos hc] at h
        simpa using h
      unfold fmt2 at hr
      rw [hres] at hr
      rw [if_pos hc] at hr
      simp only [hn, Bool.false_eq_true, if_false] at hr
      cases hlast : (agentMsgs xs).getLast? with
      | some m =>
        rw [hlast] at hr
        exact ⟨_, (Option.some.inj hr).symm⟩
      | none => rw [hlast] at hr; exact absurd hr (by simp)
    | vNull =>
      rw [hres] at hc
      unfold resultsSafe at h
      rw [hres] at h
      rw [if_pos hc] at h
      simp at h
    | vBool b =>
      rw [hres] at hc
      unfold resultsSafe at h
      rw [hres] at h
      rw [if_pos hc] at h
      simp at h
    | vNum n =>
      rw [hres] at hc
      unfold resultsSafe at h
      rw [hres] at h
      rw [if_pos hc] at h
      simp at h
    | vStr s =>
      rw [hres] at hc
      unfold resultsSafe at h
      rw [hres] at h
      rw [if_pos hc] at h
      simp at h
    | vObj fs =>
      rw [hres] at hc
      unfold resultsSafe at h
      rw [hres] at h
      rw [if_pos hc] at h
      simp at h

/-- C3 amended: for every truthy payload whose results property is
safe (an array without null entries whenever it is truthy with
positive length), parseWebhookResponse returns an envelope and never
throws.  The original claim fails on falsy payloads — null, undefined,
the empty string, 0 — where the function throws at relevance.js 372,
and on a truthy non-array results property with positive length,
where results.filter throws a TypeError. -/
theorem parse_returns_envelope (d : JVal) (h1 : truthy d = true)
    (h2 : resultsSafe d = true) :
    ∃ env, parseWebhookResponse d = .ok env := by
  cases hf1 : fmt1 d with
  | some e => exact ⟨e, by simp [parseWebhookResponse, h1, hf1]⟩
  | none =>
    cases hf2 : fmt2 d with
    | some r =>
      obtain ⟨e, he⟩ := fmt2_safe d h2 r hf2
      exact ⟨e, by simp [parseWebhookResponse, h1, hf1, hf2, he]⟩
    | none =>
      cases hf3 : fmt3 d with
      | some e => exact ⟨e, by simp [parseWebhookResponse, h1, hf1, hf2, hf3]⟩
      | none =>
        cases hf4 : fmt4 d with
        | some e => exact ⟨e, by simp [parseWebhookResponse, h1, hf1, hf2, hf3, hf4]⟩
        | none =>
          cases hf5 : fmt5 d with
          | some e => exact ⟨e, by simp [parseWebhookResponse, h1, hf1, hf2, hf3, hf4, hf5]⟩
          | none =>
            cases hf6 : fmt6 d with
            | some e =>
              exact ⟨e, by simp [parseWebhookResponse, h1, hf1, hf2, hf3, hf4, hf5, hf6]⟩
            | none =>
              exact ⟨fallbackEnvelope d,
                by simp [parseWebhookResponse, h1, hf1, hf2, hf3, hf4, hf5, hf6]⟩

/-- Witness for the amended C3 theorem at a concrete format-5
payload. -/
theorem parse_returns_envelope_witness :
    ∃ env, parseWebhookResponse (.vObj [("content", .vStr "hi")]) = .ok env :=
  parse_returns_envelope (.vObj [("content", .vStr "hi")]) rfl rfl

/-- C5: parseWebhookResponse tries the six recognized shapes in the
fixed source order — (a) direct response field, (b) results list
filtered to agent-authored entries taking the last matching entry's
content text, (c) output field with text sub-field or the field
itself, (d) nested task.response, (e) content field stringified when
not already a string, (f) nested data.content — the first matching
shape wins and each shape's envelope text equals the field that shape
designates. -/
theorem normalizer_priority_order (d : JVal) (hd : truthy d = true) :
    (∀ e, fmt1 d = some e →
      parseWebhookResponse d = .ok e ∧ e.text = jget d "response")
    ∧ (∀ xs m, fmt1 d = none → jget d "results" = .vArr xs →
        xs.any isNullish = false → (agentMsgs xs).getLast? = some m →
        ∃ env, parseWebhookResponse d = .ok env
          ∧ env.text = jget (jget m "content") "text")
    ∧ (fmt1 d = none → fmt2 d = none → truthy (jget d "output") = true →
        ∃ env, parseWebhookResponse d = .ok env
          ∧ env.text = jsOr (jget (jget d "output") "text") (jget d "output"))
    ∧ (fmt1 d = none → fmt2 d = none → truthy (jget d "output") = false →
        truthy (jget d "task") = true →
        truthy (jget (jget d "task") "response") = true →
        ∃ env, parseWebhookResponse d = .ok env
          ∧ env.text = jget (jget d "task") "response")
    ∧ (fmt1 d = none → fmt2 d = none → truthy (jget d "output") = false →
        (truthy (jget d "task") = false
          ∨ truthy (jget (jget d "task") "response") = false) →
        truthy (jget d "content") = true →
        ∃ env, parseWebhookResponse d = .ok env
          ∧ env.text = .vStr (contentToString (jget d "content")))
    ∧ (fmt1 d = none → fmt2 d = none → truthy (jget d "output") = false →
        (truthy (jget d "task") = false
          ∨ truthy (jget (jget d "task") "response") = false) →
        truthy (jget d "content") = false →
        truthy (jget d "data") = true →
        truthy (jget (jget d "data") "content") = true →
        ∃ env, parseWebhookResponse d = .ok env
          ∧ env.text = .vStr (contentToString (jget (jget d "data") "content"))) := by
  refine ⟨?_, ?_, ?_, ?_, ?_, ?_⟩
  · intro e he
    refine ⟨by simp [parseWebhookResponse, hd, he], ?_⟩
    unfold fmt1 at he
    split at he
    · cases Option.some.inj he
      rfl
    · exact absurd he (by simp)
  · intro xs m hf1 hres hn hlast
    have hxs : xs ≠ [] := by
      intro hh
      subst hh
      simp [agentMsgs] at hlast
    have hc : (truthy (.vArr xs) && gtZero (jsLength (.vArr xs))) = true := by
      simp [truthy, jsLength, gtZero, Nat.cast_pos, List.length_pos, hxs]
    have hf2 : fmt2 d = some (.ok
        { text := jget (jget m "content") "text",
          conversation_id := jget d "conversation_id",
          thread_id := jget d "thread_id" }) := by
      unfold fmt2
      rw [hres, if_pos hc]
      simp only [hn, Bool.false_eq_true, if_false]
      rw [hlast]
    exact ⟨{ text := jget (jget m "content") "text",
             conversation_id := jget d "conversation_id",
             thread_id := jget d "thread_id" },
      by simp [parseWebhookResponse, hd, hf1, hf2], rfl⟩
  · intro hf1 hf2 hout
    have hf3 : fmt3 d = some
        { text := jsOr (jget (jget d "output") "text") (jget d "output"),
          conversation_id := jget d "conversation_id",
          thread_id := jget d "thread_id" } := by
      unfold fmt3
      rw [if_pos hout]
    exact ⟨{ text := jsOr (jget (jget d "output") "text") (jget d "output"),
             conversation_id := jget d "conversation_id",
             thread_id := jget d "thread_id" },
      by simp [parseWebhookResponse, hd, hf1, hf2, hf3], rfl⟩
  · intro hf1 hf2 hout htask htresp
    have hf3 : fmt3 d = none := by
      unfold fmt3
      simp only [hout, Bool.false_eq_true, if_false]
    have hf4 : fmt4 d = some
        { text := jget (jget d "task") "response",
          conversation_id := jget d "conversation_id",
          thread_id := jget d "thread_id" } := by
      unfold fmt4
      simp only [htask, htresp, Bool.and_self, if_true]
    exact ⟨{ text := jget (jget d "task") "response",
             conversation_id := jget d "conversation_id",
             thread_id := jget d "thread_id" },
      by simp [parseWebhookResponse, hd, hf1, hf2, hf3, hf4], rfl⟩
  · intro hf1 hf2 hout hdisj hcontent
    have hf3 : fmt3 d = none := by
      unfold fmt3
      simp only [hout, Bool.false_eq_true, if_false]
    have hf4 : fmt4 d = none := by
      unfold fmt4
      cases hdisj with
      | inl h => simp [h]
      | inr h => simp [h]
    have hf5 : fmt5 d = some
        { text := .vStr (contentToString (jget d "content")),
          conversation_id := jsOr (jget d "conversation_id") (jget d "thread_id"),
          thread_id := jget d "thread_id" } := by
      unfold fmt5
      rw [if_pos hcontent]
    exact ⟨{ text := .vStr (contentToString (jget d "content")),
             conversation_id := jsOr (jget d "conversation_id") (jget d "thread_id"),
             thread_id := jget d "thread_id" },
      by simp [parseWebhookResponse, hd, hf1, hf2, hf3, hf4, hf5], rfl⟩
  · intro hf1 hf2 hout hdisj hcontent hdata hdc
    have hf3 : fmt3 d = none := by
      unfold fmt3
      simp only [hout, Bool.false_eq_true, if_false]
    have hf4 : fmt4 d = none := by
      unfold fmt4
      cases hdisj with
      | inl h => simp [h]
      | inr h => simp [h]
    have hf5 : fmt5 d = none := by
      unfold fmt5
      simp only [hcontent, Bool.false_eq_true, if_false]
    have hf6 : fmt6 d = some
        { text := .vStr (contentToString (jget (jget d "data") "content")),
          conversation_id := jsOr (jget (jget d "data") "conversation_id") (jget d "thread_id"),
          thread_id := jget d "thread_id" } := by
      unfold fmt6
      simp only [hdata, hdc, Bool.and_self, if_true]
    exact ⟨{ text := .vStr (contentToString (jget (jget d "data") "content")),
             conversation_id := jsOr (jget (jget d "data") "conversation_id") (jget d "thread_id"),
             thread_id := jget d "thread_id" },
      by simp [parseWebhookResponse, hd, hf1, hf2, hf3, hf4, hf5, hf6], rfl⟩

/-- Witness for the C5 theorem: the first shape applied to a concrete
direct-response payload. -/
theorem normalizer_priority_order_witness :
    parseWebhookResponse (.vObj [("response", .vStr "hi")])
      = .ok { text := .vStr "hi", conversation_id := .vNull, thread_id := .vNull }
    ∧ Envelope.text
        { text := .vStr "hi", conversation_id := .vNull, thread_id := .vNull }
      = jget (.vObj [("response", .vStr "hi")]) "response" :=
  (normalizer_priority_order (.vObj [("response", .vStr "hi")]) rfl).1
    { text := .vStr "hi", conversation_id := .vNull, thread_id := .vNull } rfl

/-- A prefixed error note is never the empty string. -/
theorem errorNote_ne_empty (s : String) : ("Error: " ++ s) ≠ "" := by
  intro hh
  have hlen := congrArg String.length hh
  rw [String.length_append] at hlen
  have h7 : ("Error: ").length = 7 := rfl
  have h0 : ("" : String).length = 0 := rfl
  rw [h7, h0] at hlen
  omega

/-- C6: on a truthy payload matching none of the six recognized
shapes, parseWebhookResponse returns the diagnostic fallback envelope:
status unparsed, the raw payload retained, and a best-effort text —
the first 100 characters when the payload is a string, otherwise the
message property when it is a non-empty string, otherwise the error
property when it is a non-empty string. -/
theorem unparsed_fallback (d : JVal) (hd : truthy d = true)
    (h1 : fmt1 d = none) (h2 : fmt2 d = none) (h3 : fmt3 d = none)
    (h4 : fmt4 d = none) (h5 : fmt5 d = none) (h6 : fmt6 d = none) :
    parseWebhookResponse d = .ok (fallbackEnvelope d)
    ∧ (fallbackEnvelope d).status = some "unparsed"
    ∧ (fallbackEnvelope d).raw = some d
    ∧ (∀ s, d = .vStr s → fallbackText d = s.take 100)
    ∧ (∀ s, d = .vStr s → s.take 100 ≠ "" →
        (fallbackEnvelope d).text = .vStr (s.take 100))
    ∧ (∀ s, (∀ t, d ≠ .vStr t) → jget d "message" = .vStr s → s ≠ "" →
        (fallbackEnvelope d).text = .vStr s)
    ∧ (∀ s, (∀ t, d ≠ .vStr t) → truthy (jget d "message") = false →
        jget d "error" = .vStr s → s ≠ "" →
        (fallbackEnvelope d).text = .vStr ("Error: " ++ s)) := by
  refine ⟨by simp [parseWebhookResponse, hd, h1, h2, h3, h4, h5, h6], rfl, rfl,
    ?_, ?_, ?_, ?_⟩
  · intro s hs
    subst hs
    rfl
  · intro s hs hne
    subst hs
    have hft : fallbackText (.vStr s) = s.take 100 := rfl
    unfold fallbackEnvelope
    rw [hft, if_neg hne]
  · intro s hnstr hmsg hsne
    have hft : fallbackText d = s := by
      cases d with
      | vStr t => exact absurd rfl (hnstr t)
      | vNull => simp [jget] at hmsg
      | vBool b => simp [jget] at hmsg
      | vNum n => simp [jget] at hmsg
      | vArr xs => simp [jget] at hmsg
      | vObj fs =>
        have hts : truthy (.vStr s) = true := by simpa [truthy] using hsne
        simp [fallbackText, hmsg, hts]
    unfold fallbackEnvelope
    rw [hft, if_neg hsne]
  · intro s hnstr hm herr hsne
    have hft : fallbackText d = "Error: " ++ s := by
      cases d with
      | vStr t => exact absurd rfl (hnstr t)
      | vNull => simp [jget] at herr
      | vBool b => simp [jget] at herr
      | vNum n => simp [jget] at herr
      | vArr xs => simp [jget] at herr
      | vObj fs =>
        have hts : truthy (.vStr s) = true := by simpa [truthy] using hsne
        simp [fallbackText, hm, herr, hts]
    unfold fallbackEnvelope
    rw [hft, if_neg (errorNote_ne_empty s)]

set_option maxRecDepth 4096 in
/-- Witness for the C6 theorem at a concrete string payload. -/
theorem unparsed_fallback_witness :
    parseWebhookResponse (.vStr "mystery payload")
      = .ok (fallbackEnvelope (.vStr "mystery payload"))
    ∧ (fallbackEnvelope (.vStr "mystery payload")).status = some "unparsed"
    ∧ (fallbackEnvelope (.vStr "mystery payload")).text
      = .vStr (("mystery payload").take 100) := by
  have h := unparsed_fallback (.vStr "mystery payload") rfl rfl rfl rfl rfl rfl rfl
  exact ⟨h.1, h.2.1, h.2.2.2.2.1 "mystery payload" rfl (by decide)⟩

/-- C7: the webhook receiver resolves the thread id by trying, in this
exact order, thread_id, threadId, conversation_id, task.thread_id and
id, taking the first truthy one; when none is truthy the payload is
dropped and nothing is emitted to any client. -/
theorem webhook_thread_id_resolution (d : JVal) (reg : Registry) :
    (truthy (jget d "thread_id") = true →
      resolveThreadId d = jget d "thread_id")
    ∧ (truthy (jget d "thread_id") = false →
        truthy (jget d "threadId") = true →
        resolveThreadId d = jget d "threadId")
    ∧ (truthy (jget d "thread_id") = false →
        truthy (jget d "threadId") = false →
        truthy (jget d "conversation_id") = true →
        resolveThreadId d = jget d "conversation_id")
    ∧ (truthy (jget d "thread_id") = false →
        truthy (jget d "threadId") = false →
        truthy (jget d "conversation_id") = false →
        truthy (jget d "task") = true →
        truthy (jget (jget d "task") "thread_id") = true →
        resolveThreadId d = jget (jget d "task") "thread_id")
    ∧ (truthy (jget d "thread_id") = false →
        truthy (jget d "threadId") = false →
        truthy (jget d "conversation_id") = false →
        (truthy (jget d "task") = false
          ∨ truthy (jget (jget d "task") "thread_id") = false) →
        resolveThreadId d = jget d "id")
    ∧ (truthy (resolveThreadId d) = false → handleWebhookEvents d reg = []) := by
  refine ⟨?_, ?_, ?_, ?_, ?_, ?_⟩
  · intro h1
    simp [resolveThreadId, jsOr, h1]
  · intro h1 h2
    simp [resolveThreadId, jsOr, h1, h2]
  · intro h1 h2 h3
    simp [resolveThreadId, jsOr, h1, h2, h3]
  · intro h1 h2 h3 h4 h5
    simp [resolveThreadId, jsOr, jsAnd, h1, h2, h3, h4, h5]
  · intro h1 h2 h3 h4
    cases h4 with
    | inl h => simp [resolveThreadId, jsOr, jsAnd, h1, h2, h3, h]
    | inr h =>
      cases ht : truthy (jget d "task") with
      | false => simp [resolveThreadId, jsOr, jsAnd, h1, h2, h3, ht]
      | true => simp [resolveThreadId, jsOr, jsAnd, h1, h2, h3, ht, h]
  · intro h
    simp [handleWebhookEvents, h]

/-- Witness for the C7 theorem: a payload with none of the five id
fields resolves nothing and produces no emission. -/
theorem webhook_thread_id_resolution_witness :
    handleWebhookEvents (.vObj [("response", .vStr "hi")]) regT1 = [] :=
  (webhook_thread_id_resolution (.vObj [("response", .vStr "hi")]) regT1).2.2.2.2.2 rfl

/-- C4 counterexample: with two live connections s1 and s2 registered
under thread T1, a job resolved by the fallback-poll path delivers
only to the originating socket s1, not "to every still-live connection
registered under the thread id" as the claim states for both paths. -/
theorem poll_path_single_recipient :
    recipientsOf [serverCbEmission "s1" (JVal.vStr "C1")
        (pollCbEvent (JVal.vStr "C1")
          (PollResult.success (JVal.vStr "Hi") (JVal.vStr "C1")))] = ["s1"]
    ∧ (liveSockets [("T1", [⟨"s1", true⟩, ⟨"s2", true⟩])] "T1").map
        (fun s => s.id) = ["s1", "s2"]
    ∧ recipientsOf [serverCbEmission "s1" (JVal.vStr "C1")
        (pollCbEvent (JVal.vStr "C1")
          (PollResult.success (JVal.vStr "Hi") (JVal.vStr "C1")))]
      ≠ (liveSockets [("T1", [⟨"s1", true⟩, ⟨"s2", true⟩])] "T1").map
        (fun s => s.id) := by
  refine ⟨rfl, rfl, ?_⟩
  decide

/-- C4 amended: the callback path delivers the parsed envelope through
the registry to exactly the still-connected sockets under the resolved
thread id, and a thread with a missing or empty socket set is a no-op;
the fallback-poll path bypasses the registry, every one of its
emissions going only to the single originating socket. -/
theorem delivery_paths (d : JVal) (reg : Registry) (sid : String)
    (dc rc : JVal) (pr : PollResult) :
    (∀ env socks, truthy (resolveThreadId d) = true →
      parseWebhookResponse d = .ok env →
      regLookup (resolveThreadId d) reg = some socks →
      handleWebhookEvents d reg = (socks.filter (fun s => s.connected)).map
        (fun s => Emission.reply s.id env.text env.conversation_id))
    ∧ (regLookup (resolveThreadId d) reg = none
        ∨ regLookup (resolveThreadId d) reg = some [] →
        handleWebhookEvents d reg = [])
    ∧ (∀ e ∈ [serverCbEmission sid rc (pollCbEvent dc pr)], emissionSock e = sid) := by
  refine ⟨?_, ?_, ?_⟩
  · intro env socks ht hp hl
    cases socks with
    | nil => simp [handleWebhookEvents, ht, hp, hl]
    | cons a as => simp [handleWebhookEvents, ht, hp, hl]
  · intro h
    cases h with
    | inl h =>
      unfold handleWebhookEvents
      split
      · rfl
      · cases parseWebhookResponse d with
        | error e => rfl
        | ok env => simp [h]
    | inr h =>
      unfold handleWebhookEvents
      split
      · rfl
      · cases parseWebhookResponse d with
        | error e => rfl
        | ok env => simp [h]
  · intro e he
    cases pr with
    | success t c =>
      simp [serverCbEmission, pollCbEvent] at he
      subst he
      rfl
    | failure t =>
      simp [serverCbEmission, pollCbEvent] at he
      subst he
      rfl

/-- Witness for the C4 amended theorem: the webhook whBody1 delivered
through the registry reaches exactly the live socket s1. -/
theorem delivery_paths_witness :
    handleWebhookEvents whBody1 regT1 = [Emission.reply "s1" (JVal.vStr "Hi there") (JVal.vStr "C1")] := by
  have h := (delivery_paths whBody1 regT1 "s1" JVal.vNull JVal.vNull
      (PollResult.failure "x")).1
    { text := JVal.vStr "Hi there", conversation_id := JVal.vStr "C1",
      thread_id := JVal.vStr "T1" } [sock1] rfl rfl rfl
  exact h

/-- C8: when the outbound transport call fails, the dispatcher throws
without arming the fallback timer — no job state of any kind is
created — and the message handler reports the failure in the same
handler run as a dispatch error event, emitting no reply envelope. -/
theorem dispatch_failure_synchronous (msg agentId authToken serverUrl : String)
    (tid : Option String) (cb : Bool) (e : String) (sid : String)
    (hmsg : msg ≠ "") (hagent : agentId ≠ "") (htok : authToken ≠ "")
    (hurl : serverUrl ≠ "") :
    sendMessageToRelevanceAI msg authToken serverUrl tid cb (.error e)
      = (.error e, none)
    ∧ socketMessageHandler sid msg agentId authToken serverUrl tid (.error e)
      = [Emission.processing sid,
         Emission.errorEv sid ("Error processing your message: " ++ e)] := by
  have hsend : sendMessageToRelevanceAI msg authToken serverUrl tid cb (.error e)
      = (.error e, none) := by
    unfold sendMessageToRelevanceAI
    rw [if_neg hmsg, if_neg htok, if_neg hurl]
  have hsend2 : sendMessageToRelevanceAI msg authToken serverUrl tid true (.error e)
      = (.error e, none) := by
    unfold sendMessageToRelevanceAI
    rw [if_neg hmsg, if_neg htok, if_neg hurl]
  refine ⟨hsend, ?_⟩
  unfold socketMessageHandler
  rw [if_neg hmsg, if_neg hagent, hsend2]

/-- Witness for the C8 theorem at concrete inputs. -/
theorem dispatch_failure_synchronous_witness :
    sendMessageToRelevanceAI "Hello" "tok" "https://srv" (some "T1") true
      (.error "Relevance AI API error (500): boom") = (.error "Relevance AI API error (500): boom", none)
    ∧ socketMessageHandler "s1" "Hello" "agent" "tok" "https://srv" (some "T1")
      (.error "Relevance AI API error (500): boom")
      = [Emission.processing "s1",
         Emission.errorEv "s1" ("Error processing your message: " ++ "Relevance AI API error (500): boom")] :=
  dispatch_failure_synchronous "Hello" "agent" "tok" "https://srv" (some "T1") true
    "Relevance AI API error (500): boom" "s1"
    (by decide) (by decide) (by decide) (by decide)

/-- C9: registering a socket and unregistering a socket both preserve
the registry invariant that no thread entry has an empty socket set —
unregister removes the socket from its thread's set and drops the
entry when the set becomes empty. -/
theorem registry_no_empty_threads (reg : Registry) (h : regWF reg) :
    (∀ t s, regWF (registerSocket reg t s))
    ∧ (∀ tid sid, regWF (unregisterSocket reg tid sid)) := by
  constructor
  · intro t s
    unfold registerSocket
    split
    · intro e he
      rw [List.mem_map] at he
      obtain ⟨a, ha, hae⟩ := he
      by_cases hat : (a.1 == t) = true
      · rw [if_pos hat] at hae
        subst hae
        split
        · exact h a ha
        · simp
      · rw [if_neg hat] at hae
        subst hae
        exact h a ha
    · intro e he
      rw [List.mem_append] at he
      cases he with
      | inl he => exact h e he
      | inr he =>
        rw [List.mem_singleton] at he
        subst he
        simp
  · intro tid sid
    cases tid with
    | none => exact h
    | some t =>
      intro e he
      unfold unregisterSocket at he
      rw [List.mem_filterMap] at he
      obtain ⟨a, ha, hae⟩ := he
      by_cases hat : (a.1 == t) = true
      · rw [if_pos hat] at hae
        simp only [] at hae
        by_cases hemp : (a.2.filter (fun r => r.id != sid)).isEmpty = true
        · rw [if_pos hemp] at hae
          exact absurd hae (by simp)
        · rw [if_neg hemp] at hae
          cases Option.some.inj hae
          simpa [List.isEmpty_iff] using hemp
      · rw [if_neg hat] at hae
        cases Option.some.inj hae
        exact h _ ha

/-- Witness for the C9 theorem at a concrete registry. -/
theorem registry_no_empty_threads_witness :
    regWF (registerSocket regT1 "T2" ⟨"s2", true⟩)
    ∧ regWF (unregisterSocket regT1 (some "T1") "s1") :=
  ⟨(registry_no_empty_threads regT1 (by unfold regWF; decide)).1 "T2" ⟨"s2", true⟩,
   (registry_no_empty_threads regT1 (by unfold regWF; decide)).2 (some "T1") "s1"⟩

/-- C10: when the dispatch response carries no job_info.job_id, or no
socket callback was supplied, the fallback timer is never armed, so
the poll path never runs: no poll is issued and no emission of any
kind — reply, timeout or error — is ever produced by it. -/
theorem no_job_id_no_polling (rd : JVal) (msg authToken serverUrl : String)
    (tid : Option String) (cb : Bool) (sid : String) (dc rc : JVal)
    (resp : Nat → Except String JVal) (m : Nat)
    (hmsg : msg ≠ "") (htok : authToken ≠ "") (hurl : serverUrl ≠ "")
    (h : truthy (optChain (jget rd "job_info") "job_id") = false ∨ cb = false) :
    (sendMessageToRelevanceAI msg authToken serverUrl tid cb (.ok rd)).2 = none
    ∧ jobTimerEmissions sid dc rc
        (sendMessageToRelevanceAI msg authToken serverUrl tid cb (.ok rd)).2
        resp m = [] := by
  have harm : (sendMessageToRelevanceAI msg authToken serverUrl tid cb (.ok rd)).2
      = none := by
    unfold sendMessageToRelevanceAI
    rw [if_neg hmsg, if_neg htok, if_neg hurl]
    cases h with
    | inl h => simp [h]
    | inr h => simp [h]
  exact ⟨harm, by rw [harm]; rfl⟩

/-- Witness for the C10 theorem: a dispatch response without job_info
arms nothing. -/
theorem no_job_id_no_polling_witness :
    (sendMessageToRelevanceAI "Hello" "tok" "https://srv" (some "T1") true
      (.ok (.vObj [("conversation_id", .vStr "C1")]))).2 = none
    ∧ jobTimerEmissions "s1" JVal.vNull JVal.vNull
        (sendMessageToRelevanceAI "Hello" "tok" "https://srv" (some "T1") true
          (.ok (.vObj [("conversation_id", .vStr "C1")]))).2
        pollRespCompleted 10 = [] :=
  no_job_id_no_polling (.vObj [("conversation_id", .vStr "C1")]) "Hello" "tok"
    "https://srv" (some "T1") true "s1" JVal.vNull JVal.vNull pollRespCompleted 10
    (by decide) (by decide) (by decide) (Or.inl rfl)
